import Mathlib

/-!
Verification of the Quote Session Manager core of the Kanye-Says quote
application (src/main.py), as a shallow embedding in Lean 4.

Modelling conventions:
* Python lists of strings / dicts become Lean `List String` /
  `List HistoryEntry`; membership (`in`), `list.remove`, `list.append`
  become `List.contains`, `List.erase`, `++ [·]` (all by exact string
  equality, as in Python).
* The two JSON files under `data/` are modelled by `DataDir`: each file is
  absent, corrupt (raises inside `json.load`), or holds a parsed value.
* `datetime.now().isoformat()` and `random.choice` are nondeterministic in
  the source; they are passed in as explicit parameters (`timestamp`, an
  index `k` reduced mod the corpus length).
* I/O faults during `QuoteManager.save_data` are modelled by an `IOFault`
  scenario naming which statement of the `try` block raises; the `try`
  body is `save_body`, returning the exception (if any) together with the
  files as left behind, and `save_data` is the `try/except` wrapper.
* The GUI event loop plus the background fetch thread (`get_quote`,
  `_fetch_quote`, `window.after`) are modelled by a small-step machine
  `LoopState`/`loopStep` whose events are: a user press of the quote
  button, the background thread posting its `_show_loading(True)`
  callback, the network request completing (success or error), and the
  main loop running the next scheduled callback.
-/

/-- One history entry, as written by `QuoteManager.add_to_history`
(src/main.py lines 108-115): the quote text and its insertion
timestamp. -/
structure HistoryEntry where
  quote : String
  timestamp : String
deriving DecidableEq, Repr

/-- State of the persisted favorites file `data/favorites.json`: missing,
unparseable (json.load raises), or a parsed JSON array of strings. -/
inductive FavFile where
  | absent : FavFile
  | corrupt : FavFile
  | valid : List String → FavFile
deriving DecidableEq, Repr

/-- State of the persisted history file `data/history.json`: missing,
unparseable (json.load raises), or a parsed JSON array of entries. -/
inductive HistFile where
  | absent : HistFile
  | corrupt : HistFile
  | valid : List HistoryEntry → HistFile
deriving DecidableEq, Repr

/-- The durable storage owned by the manager: the two files in
`Config.DATA_DIR`. -/
structure DataDir where
  favoritesFile : FavFile
  historyFile : HistFile
deriving DecidableEq, Repr

/-- In-memory state of `QuoteManager` (src/main.py lines 66-134):
`history`, `favorites`, `current_quote`. -/
structure QuoteManager where
  history : List HistoryEntry
  favorites : List String
  current_quote : String
deriving DecidableEq, Repr

namespace Config

/-- `Config.FALLBACK_QUOTES` (src/main.py lines 47-62), the fixed built-in
fallback corpus. Apostrophes are written with the escape \x27. -/
def FALLBACK_QUOTES : List String :=
  [ "I\x27m not a businessman, I\x27m a business, man!",
    "I refuse to accept other people\x27s ideas of happiness for me.",
    "Everything I\x27m not made me everything I am.",
    "I feel like I\x27m too busy writing history to read it.",
    "Life is 5% what happens and 95% how you react.",
    "Believe in your flyness, conquer your shyness.",
    "I don\x27t even listen to rap. My apartment is too nice to listen to rap in.",
    "Keep your nose out the sky, keep your heart to God, and keep your face to the rising sun.",
    "I am Warhol. I am the No. 1 most impactful artist of our generation.",
    "My greatest pain in life is that I will never be able to see myself perform live.",
    "I hate when I\x27m on a flight and I wake up with a water bottle next to me.",
    "I feel calm but energized.",
    "I\x27m on the pursuit of awesomeness.",
    "Would you believe in what you believe in if you were the only one who believed it?" ]

end Config

/-- Python slice `l[-n:]`: the last `n` elements (the whole list when it is
shorter than `n`). Used by `save_data` with `n = 50`. -/
def pyLastSlice (n : Nat) (l : List α) : List α :=
  l.drop (l.length - n)

namespace QuoteManager

/-- `QuoteManager._load_data` (src/main.py lines 75-93): for each file,
if it exists, try to parse it; on a parse failure reset the field to `[]`;
if it does not exist, keep the field as initialised. `mkdir` has no effect
on the two files. -/
def _load_data (self : QuoteManager) (d : DataDir) : QuoteManager :=
  let self :=
    match d.favoritesFile with
    | .absent => self
    | .corrupt => { self with favorites := [] }
    | .valid l => { self with favorites := l }
  match d.historyFile with
  | .absent => self
  | .corrupt => { self with history := [] }
  | .valid l => { self with history := l }

/-- `QuoteManager.__init__` (src/main.py lines 69-73): start from empty
history, empty favorites and empty current quote, then `_load_data`. -/
def init (d : DataDir) : QuoteManager :=
  _load_data { history := [], favorites := [], current_quote := "" } d

/-- Which statement of the `try` block in `save_data` raises, if any. -/
inductive IOFault where
  | ok : IOFault
  | mkdirFail : IOFault
  | favoritesWriteFail : IOFault
  | historyWriteFail : IOFault
deriving DecidableEq, Repr

/-- Exception text for each fault (the `e` bound by `except Exception as e`). -/
def IOFault.msg : IOFault → String
  | .ok => ""
  | .mkdirFail => "mkdir failed"
  | .favoritesWriteFail => "favorites write failed"
  | .historyWriteFail => "history write failed"

/-- The body of the `try` block of `save_data` (src/main.py lines 98-104):
mkdir, write the favorites file, write the last 50 history entries. Returns
the exception, if one was raised, together with the files as left behind
(a failing history write leaves the already-rewritten favorites file). -/
def save_body (self : QuoteManager) (d : DataDir) (fault : IOFault) :
    Except String Unit × DataDir :=
  match fault with
  | .mkdirFail => (.error IOFault.mkdirFail.msg, d)
  | .favoritesWriteFail => (.error IOFault.favoritesWriteFail.msg, d)
  | .historyWriteFail =>
      (.error IOFault.historyWriteFail.msg,
       { d with favoritesFile := .valid self.favorites })
  | .ok =>
      (.ok (),
       { favoritesFile := .valid self.favorites,
         historyFile := .valid (pyLastSlice 50 self.history) })

/-- `QuoteManager.save_data` (src/main.py lines 95-106): run the `try`
body; `except Exception as e` converts any exception into the printed
diagnostic `Error saving data: ...` (the second component). No exception
escapes and the in-memory fields are not touched. -/
def save_data (self : QuoteManager) (d : DataDir) (fault : IOFault) :
    DataDir × Option String :=
  match save_body self d fault with
  | (.ok _, d₁) => (d₁, none)
  | (.error e, d₁) => (d₁, some (String.append "Error saving data: " e))

/-- `QuoteManager.add_to_history` (src/main.py lines 108-115): append the
entry `\x7bquote, timestamp\x7d` and set `current_quote`. The timestamp
(`datetime.now().isoformat()`) is an explicit parameter. -/
def add_to_history (self : QuoteManager) (quote : String) (timestamp : String) :
    QuoteManager :=
  { self with
    history := self.history ++ [{ quote := quote, timestamp := timestamp }],
    current_quote := quote }

/-- `QuoteManager.toggle_favorite` (src/main.py lines 117-124): if present,
remove the first occurrence (`list.remove`) and return `false`; otherwise
append and return `true`. -/
def toggle_favorite (self : QuoteManager) (quote : String) :
    QuoteManager × Bool :=
  if self.favorites.contains quote then
    ({ self with favorites := self.favorites.erase quote }, false)
  else
    ({ self with favorites := self.favorites ++ [quote] }, true)

/-- `QuoteManager.is_favorite` (src/main.py lines 126-128): exact-string
membership in favorites. -/
def is_favorite (self : QuoteManager) (quote : String) : Bool :=
  self.favorites.contains quote

end QuoteManager

/-- The slice of `KanyeQuoteApp` state the core operations touch:
`is_loading`, the owned `quote_manager`, and the durable `data/`
directory (ambient in Python, threaded explicitly here). -/
structure AppState where
  is_loading : Bool
  quote_manager : QuoteManager
  data_dir : DataDir
deriving DecidableEq, Repr

namespace KanyeQuoteApp

/-- State effect of `KanyeQuoteApp._show_loading` (src/main.py lines
396-405): sets `is_loading`; the rest is widget configuration. -/
def _show_loading (s : AppState) (show_ : Bool) : AppState :=
  { s with is_loading := show_ }

/-- `KanyeQuoteApp._display_quote` (src/main.py lines 452-465): clear the
loading state, show the quote, `add_to_history`, `save_data`, update the
indicator and stats labels (pure reads, omitted). The timestamp taken
inside `add_to_history` and the I/O fault scenario of `save_data` are
explicit parameters. -/
def _display_quote (s : AppState) (quote : String) (timestamp : String)
    (fault : QuoteManager.IOFault) : AppState :=
  let s := _show_loading s false
  let qm := s.quote_manager.add_to_history quote timestamp
  let (d, _diag) := qm.save_data s.data_dir fault
  { s with quote_manager := qm, data_dir := d }

/-- The notification message chosen in `_handle_error` (src/main.py lines
474-479) from the `error_type` string. -/
def errorMessage (error_type : String) : String :=
  if error_type = "timeout" then "API timeout - here\x27s a saved quote:"
  else if error_type = "connection" then "No internet - here\x27s a saved quote:"
  else "Error occurred - here\x27s a saved quote:"

/-- `KanyeQuoteApp._handle_error` (src/main.py lines 467-487): clear the
loading state, pick `random.choice(Config.FALLBACK_QUOTES)` (modelled by
the index `k` reduced mod the corpus length), show it, `add_to_history`,
update indicator and stats, and print the notification. Returns the new
state, the fallback quote displayed, and the printed message. Note: unlike
`_display_quote`, the source does not call `save_data` here. -/
def _handle_error (s : AppState) (error_type : String) (k : Nat)
    (timestamp : String) : AppState × String × String :=
  let s := _show_loading s false
  let fallback :=
    Config.FALLBACK_QUOTES.getD (k % Config.FALLBACK_QUOTES.length) ""
  let msg := errorMessage error_type
  let qm := s.quote_manager.add_to_history fallback timestamp
  ({ s with quote_manager := qm }, fallback, msg)

/-- `KanyeQuoteApp.toggle_favorite` (src/main.py lines 489-498): read
`current_quote`; if it is empty (`if not quote`), return with no effect
(Python returns `None`, which is falsy — modelled as `false`); otherwise
toggle on the manager, `save_data`, and report whether the quote was
added. -/
def toggle_favorite (s : AppState) (fault : QuoteManager.IOFault) :
    AppState × Bool :=
  let quote := s.quote_manager.current_quote
  if quote = "" then (s, false)
  else
    let (qm, is_added) := s.quote_manager.toggle_favorite quote
    let (d, _diag) := qm.save_data s.data_dir fault
    ({ s with quote_manager := qm, data_dir := d }, is_added)

end KanyeQuoteApp

/-- A callback scheduled onto the Tk main loop with `window.after(0, ...)`
by the background fetch thread (src/main.py lines 428, 440, 445-450). -/
inductive MainCb where
  | setLoadingTrue : MainCb
  | deliverSuccess : String → String → MainCb
  | deliverError : String → Nat → String → MainCb
deriving DecidableEq, Repr

/-- State of the event machine formed by the Tk main loop and the
background fetch thread: how many spawned fetch threads have not yet
posted their `_show_loading(True)` callback (`started`), how many have an
HTTP request in flight (`fetching`), the queue of callbacks scheduled onto
the main loop, and the application state the main loop owns. -/
structure LoopState where
  started : Nat
  fetching : Nat
  queue : List MainCb
  app : AppState
deriving DecidableEq, Repr

/-- Events of the machine: the user invokes `get_quote`; a spawned thread
runs its first statement (posting `_show_loading(True)` and issuing the
HTTP request); a request completes with a quote or an error (posting the
delivery callback and ending the thread); the main loop runs the next
scheduled callback. -/
inductive LoopEv where
  | press : LoopEv
  | post : LoopEv
  | completeOk : String → String → LoopEv
  | completeErr : String → Nat → String → LoopEv
  | runMain : LoopEv
deriving DecidableEq, Repr

/-- Small-step semantics of the loop. `press` is `get_quote` (src/main.py
lines 416-424): return at once when `is_loading`, else spawn a thread.
`post` is the start of `_fetch_quote` (line 428). `completeOk`/
`completeErr` end `_fetch_quote` (lines 430-450). `runMain` executes the
head scheduled callback: `_show_loading(True)` (lines 396-405),
`_display_quote`, or `_handle_error`. Deliveries run with a fault-free
disk. -/
def loopStep (s : LoopState) : LoopEv → LoopState
  | .press =>
      if s.app.is_loading then s else { s with started := s.started + 1 }
  | .post =>
      if s.started = 0 then s
      else
        { s with
          started := s.started - 1,
          fetching := s.fetching + 1,
          queue := s.queue ++ [MainCb.setLoadingTrue] }
  | .completeOk q t =>
      if s.fetching = 0 then s
      else
        { s with
          fetching := s.fetching - 1,
          queue := s.queue ++ [MainCb.deliverSuccess q t] }
  | .completeErr e k t =>
      if s.fetching = 0 then s
      else
        { s with
          fetching := s.fetching - 1,
          queue := s.queue ++ [MainCb.deliverError e k t] }
  | .runMain =>
      match s.queue with
      | [] => s
      | MainCb.setLoadingTrue :: rest =>
          { s with queue := rest, app := KanyeQuoteApp._show_loading s.app true }
      | MainCb.deliverSuccess q t :: rest =>
          { s with queue := rest,
                   app := KanyeQuoteApp._display_quote s.app q t .ok }
      | MainCb.deliverError e k t :: rest =>
          { s with queue := rest,
                   app := (KanyeQuoteApp._handle_error s.app e k t).1 }

/-- Run a sequence of events. -/
def loopRun (s : LoopState) (evs : List LoopEv) : LoopState :=
  evs.foldl loopStep s

/-- Number of network fetch cycles currently in flight: threads spawned by
`get_quote` that have not yet delivered their result. -/
def inFlight (s : LoopState) : Nat :=
  s.started + s.fetching + (s.queue.filter fun cb =>
    match cb with
    | MainCb.setLoadingTrue => false
    | _ => true).length

/-- App-level persist: the call site `self.quote_manager.save_data()`
with the ambient file system made explicit; the manager and loading flag
are left as they were, only the disk and the printed diagnostic result. -/
def AppState.persist (s : AppState) (fault : QuoteManager.IOFault) :
    AppState × Option String :=
  let (d, diag) := s.quote_manager.save_data s.data_dir fault
  ({ s with data_dir := d }, diag)

/-- C10: a freshly constructed manager has `current_quote = ""` whatever
the durable storage holds — it is never restored from persistence — and
`current_quote` becomes non-empty only when `add_to_history` records the
first quote of the session. -/
theorem C10_fresh_manager_current_quote_empty :
    (∀ d : DataDir, (QuoteManager.init d).current_quote = "") ∧
    (∀ (qm : QuoteManager) (q t : String),
      (qm.add_to_history q t).current_quote = q) := by
  constructor
  · intro d
    obtain ⟨favf, histf⟩ := d
    cases favf <;> cases histf <;> rfl
  · intro qm q t
    rfl

/-- C2: when the current quote is empty/unset, `toggle_favorite` is a
no-op: it returns `false` (Python falls off with `None`, which is falsy),
leaves favorites, history, `current_quote` and the durable files
unchanged, and performs no persistence write. -/
theorem C2_toggle_favorite_empty_noop (s : AppState)
    (fault : QuoteManager.IOFault)
    (h : s.quote_manager.current_quote = "") :
    KanyeQuoteApp.toggle_favorite s fault = (s, false) := by
  unfold KanyeQuoteApp.toggle_favorite
  simp [h]

/-- Witness for C2 at a concrete state with an unset current quote. -/
theorem C2_toggle_favorite_empty_noop_witness :
    KanyeQuoteApp.toggle_favorite
        ⟨false, ⟨[], ["A"], ""⟩, ⟨FavFile.absent, HistFile.absent⟩⟩
        QuoteManager.IOFault.ok =
      (⟨false, ⟨[], ["A"], ""⟩, ⟨FavFile.absent, HistFile.absent⟩⟩, false) :=
  C2_toggle_favorite_empty_noop _ _ rfl

/-- C4: a fault-free save writes at most 50 history entries, and what it
writes is exactly the most recent suffix of the in-memory history in its
original insertion order (`history = dropped-prefix ++ written`, with the
written part of length `min 50 |history|`). -/
theorem C4_save_caps_history (qm : QuoteManager) (d : DataDir) :
    ∃ written : List HistoryEntry,
      (qm.save_data d .ok).1.historyFile = HistFile.valid written ∧
      written.length ≤ 50 ∧
      written.length = min 50 qm.history.length ∧
      qm.history.take (qm.history.length - 50) ++ written = qm.history := by
  refine ⟨pyLastSlice 50 qm.history, rfl, ?_, ?_, ?_⟩
  · simp only [pyLastSlice, List.length_drop]
    omega
  · simp only [pyLastSlice, List.length_drop]
    omega
  · exact List.take_append_drop _ _

/-- C5: round-trip — after a fault-free save, a manager freshly
constructed from the same storage holds exactly the persisted contents:
its favorites and (50-capped) history are the very lists stored in the
two files, order and values included. -/
theorem C5_save_load_roundtrip (qm : QuoteManager) (d : DataDir) :
    (qm.save_data d .ok).1.favoritesFile =
      FavFile.valid (QuoteManager.init (qm.save_data d .ok).1).favorites ∧
    (qm.save_data d .ok).1.historyFile =
      HistFile.valid (QuoteManager.init (qm.save_data d .ok).1).history ∧
    (QuoteManager.init (qm.save_data d .ok).1).favorites = qm.favorites ∧
    (QuoteManager.init (qm.save_data d .ok).1).history =
      pyLastSlice 50 qm.history := by
  exact ⟨rfl, rfl, rfl, rfl⟩

/-- C6: missing or unparseable persisted files are treated as no prior
data: construction always succeeds (the embedding is total) and the
corresponding in-memory structure starts out empty. -/
theorem C6_missing_or_corrupt_is_empty (d : DataDir) :
    ((d.favoritesFile = FavFile.absent ∨ d.favoritesFile = FavFile.corrupt) →
      (QuoteManager.init d).favorites = []) ∧
    ((d.historyFile = HistFile.absent ∨ d.historyFile = HistFile.corrupt) →
      (QuoteManager.init d).history = []) := by
  obtain ⟨favf, histf⟩ := d
  cases favf <;> cases histf <;>
    simp [QuoteManager.init, QuoteManager._load_data]

/-- Witness for C6 at a storage state whose two files are both corrupt. -/
theorem C6_missing_or_corrupt_is_empty_witness :
    (QuoteManager.init ⟨FavFile.corrupt, HistFile.corrupt⟩).favorites = [] ∧
    (QuoteManager.init ⟨FavFile.corrupt, HistFile.corrupt⟩).history = [] :=
  ⟨(C6_missing_or_corrupt_is_empty _).1 (Or.inr rfl),
   (C6_missing_or_corrupt_is_empty _).2 (Or.inr rfl)⟩

/-- C7: `save_data` never lets an I/O exception escape: every exception
raised inside the `try` body is turned into the returned diagnostic
message (the `print`), the files are left exactly as the body left them,
and the in-memory manager and loading flag are untouched by a persist. -/
theorem C7_save_never_raises (qm : QuoteManager) (d : DataDir)
    (fault : QuoteManager.IOFault) :
    (∀ e d₁, QuoteManager.save_body qm d fault = (Except.error e, d₁) →
      qm.save_data d fault =
        (d₁, some (String.append "Error saving data: " e))) ∧
    (fault ≠ QuoteManager.IOFault.ok → (qm.save_data d fault).2 ≠ none) ∧
    (∀ s : AppState, (AppState.persist s fault).1.quote_manager =
        s.quote_manager ∧
      (AppState.persist s fault).1.is_loading = s.is_loading) := by
  refine ⟨?_, ?_, ?_⟩
  · intro e d₁ h
    unfold QuoteManager.save_data
    rw [h]
  · intro hne
    cases fault <;> simp_all [QuoteManager.save_data, QuoteManager.save_body]
  · intro s
    exact ⟨rfl, rfl⟩

/-- Witness for C7: a concrete failing favorites write is absorbed into a
diagnostic, with nothing written and nothing raised. -/
theorem C7_save_never_raises_witness :
    QuoteManager.save_data ⟨[], [], ""⟩ ⟨FavFile.absent, HistFile.absent⟩
        QuoteManager.IOFault.favoritesWriteFail =
      (⟨FavFile.absent, HistFile.absent⟩,
       some (String.append "Error saving data: " "favorites write failed")) :=
  (C7_save_never_raises ⟨[], [], ""⟩ ⟨FavFile.absent, HistFile.absent⟩
      QuoteManager.IOFault.favoritesWriteFail).1
    "favorites write failed" ⟨FavFile.absent, HistFile.absent⟩ rfl

/-- Counterexample for C1 as stated: starting from a fresh state with
both files absent, `_handle_error "timeout"` records the fallback quote
in memory (history grows to one entry) but writes nothing — the durable
files are not the result of persisting the new state, and the history
file is still absent. -/
theorem C1_no_persist_counterexample :
    (KanyeQuoteApp._handle_error
        ⟨false, ⟨[], [], ""⟩, ⟨FavFile.absent, HistFile.absent⟩⟩
        "timeout" 0 "2024-01-01T00:00:00").1.quote_manager.history.length
        = 1 ∧
    (KanyeQuoteApp._handle_error
        ⟨false, ⟨[], [], ""⟩, ⟨FavFile.absent, HistFile.absent⟩⟩
        "timeout" 0 "2024-01-01T00:00:00").1.data_dir.historyFile
        = HistFile.absent ∧
    (KanyeQuoteApp._handle_error
        ⟨false, ⟨[], [], ""⟩, ⟨FavFile.absent, HistFile.absent⟩⟩
        "timeout" 0 "2024-01-01T00:00:00").1.data_dir ≠
      ((KanyeQuoteApp._handle_error
          ⟨false, ⟨[], [], ""⟩, ⟨FavFile.absent, HistFile.absent⟩⟩
          "timeout" 0 "2024-01-01T00:00:00").1.quote_manager.save_data
        ⟨FavFile.absent, HistFile.absent⟩ QuoteManager.IOFault.ok).1 := by
  refine ⟨rfl, rfl, ?_⟩
  decide

/-- C1 as amended: on any remote failure, `_handle_error` picks the
corpus entry selected by the random index, which is always a member of
the fixed fallback corpus; appends it to history exactly as a successful
fetch would (same entry, same timestamp); sets it as `current_quote`;
clears the loading flag; and reports a notification drawn from the
timeout / connection / unknown messages. The durable files are left
unchanged: unlike the success path, the error path does not persist. -/
theorem C1_fallback_behaviour (s : AppState) (error_type : String)
    (k : Nat) (t : String) (hk : k < Config.FALLBACK_QUOTES.length) :
    (KanyeQuoteApp._handle_error s error_type k t).2.1 =
      Config.FALLBACK_QUOTES.getD k "" ∧
    (KanyeQuoteApp._handle_error s error_type k t).2.1 ∈
      Config.FALLBACK_QUOTES ∧
    (KanyeQuoteApp._handle_error s error_type k t).1.quote_manager.history =
      s.quote_manager.history ++
        [⟨(KanyeQuoteApp._handle_error s error_type k t).2.1, t⟩] ∧
    (KanyeQuoteApp._handle_error s error_type k t).1.quote_manager.history =
      (KanyeQuoteApp._display_quote s
          (KanyeQuoteApp._handle_error s error_type k t).2.1 t
          QuoteManager.IOFault.ok).quote_manager.history ∧
    (KanyeQuoteApp._handle_error s error_type k t).1.quote_manager.current_quote
      = (KanyeQuoteApp._handle_error s error_type k t).2.1 ∧
    (KanyeQuoteApp._handle_error s error_type k t).1.is_loading = false ∧
    (KanyeQuoteApp._handle_error s error_type k t).1.data_dir = s.data_dir ∧
    (KanyeQuoteApp._handle_error s error_type k t).2.2 ∈
      [KanyeQuoteApp.errorMessage "timeout",
       KanyeQuoteApp.errorMessage "connection",
       KanyeQuoteApp.errorMessage "unknown"] := by
  have hmod : k % Config.FALLBACK_QUOTES.length = k := Nat.mod_eq_of_lt hk
  refine ⟨?_, ?_, ?_, ?_, ?_, ?_, ?_, ?_⟩
  · simp [KanyeQuoteApp._handle_error, KanyeQuoteApp._show_loading, hmod]
  · simp only [KanyeQuoteApp._handle_error, KanyeQuoteApp._show_loading, hmod]
    rw [List.getD_eq_getElem Config.FALLBACK_QUOTES "" hk]
    exact List.getElem_mem hk
  · simp [KanyeQuoteApp._handle_error, KanyeQuoteApp._show_loading,
      QuoteManager.add_to_history]
  · simp [KanyeQuoteApp._handle_error, KanyeQuoteApp._show_loading,
      KanyeQuoteApp._display_quote, QuoteManager.add_to_history,
      QuoteManager.save_data, QuoteManager.save_body]
  · simp [KanyeQuoteApp._handle_error, KanyeQuoteApp._show_loading,
      QuoteManager.add_to_history]
  · rfl
  · rfl
  · simp only [KanyeQuoteApp._handle_error]
    by_cases h1 : error_type = "timeout"
    · simp [KanyeQuoteApp.errorMessage, h1]
    · by_cases h2 : error_type = "connection"
      · simp [KanyeQuoteApp.errorMessage, h1, h2]
      · simp [KanyeQuoteApp.errorMessage, h1, h2]

/-- Witness for the amended C1 at a concrete connection failure with
random index 3. -/
theorem C1_fallback_behaviour_witness :
    3 < Config.FALLBACK_QUOTES.length ∧
    ((KanyeQuoteApp._handle_error
        ⟨false, ⟨[], [], ""⟩, ⟨FavFile.absent, HistFile.absent⟩⟩
        "connection" 3 "T").2.1 = Config.FALLBACK_QUOTES.getD 3 "" ∧
    (KanyeQuoteApp._handle_error
        ⟨false, ⟨[], [], ""⟩, ⟨FavFile.absent, HistFile.absent⟩⟩
        "connection" 3 "T").2.1 ∈ Config.FALLBACK_QUOTES ∧
    (KanyeQuoteApp._handle_error
        ⟨false, ⟨[], [], ""⟩, ⟨FavFile.absent, HistFile.absent⟩⟩
        "connection" 3 "T").1.quote_manager.history =
      (⟨false, ⟨[], [], ""⟩,
        ⟨FavFile.absent, HistFile.absent⟩⟩ : AppState).quote_manager.history
        ++ [⟨(KanyeQuoteApp._handle_error
              ⟨false, ⟨[], [], ""⟩, ⟨FavFile.absent, HistFile.absent⟩⟩
              "connection" 3 "T").2.1, "T"⟩] ∧
    (KanyeQuoteApp._handle_error
        ⟨false, ⟨[], [], ""⟩, ⟨FavFile.absent, HistFile.absent⟩⟩
        "connection" 3 "T").1.quote_manager.history =
      (KanyeQuoteApp._display_quote
          ⟨false, ⟨[], [], ""⟩, ⟨FavFile.absent, HistFile.absent⟩⟩
          (KanyeQuoteApp._handle_error
            ⟨false, ⟨[], [], ""⟩, ⟨FavFile.absent, HistFile.absent⟩⟩
            "connection" 3 "T").2.1 "T"
          QuoteManager.IOFault.ok).quote_manager.history ∧
    (KanyeQuoteApp._handle_error
        ⟨false, ⟨[], [], ""⟩, ⟨FavFile.absent, HistFile.absent⟩⟩
        "connection" 3 "T").1.quote_manager.current_quote =
      (KanyeQuoteApp._handle_error
        ⟨false, ⟨[], [], ""⟩, ⟨FavFile.absent, HistFile.absent⟩⟩
        "connection" 3 "T").2.1 ∧
    (KanyeQuoteApp._handle_error
        ⟨false, ⟨[], [], ""⟩, ⟨FavFile.absent, HistFile.absent⟩⟩
        "connection" 3 "T").1.is_loading = false ∧
    (KanyeQuoteApp._handle_error
        ⟨false, ⟨[], [], ""⟩, ⟨FavFile.absent, HistFile.absent⟩⟩
        "connection" 3 "T").1.data_dir =
      (⟨false, ⟨[], [], ""⟩,
        ⟨FavFile.absent, HistFile.absent⟩⟩ : AppState).data_dir ∧
    (KanyeQuoteApp._handle_error
        ⟨false, ⟨[], [], ""⟩, ⟨FavFile.absent, HistFile.absent⟩⟩
        "connection" 3 "T").2.2 ∈
      [KanyeQuoteApp.errorMessage "timeout",
       KanyeQuoteApp.errorMessage "connection",
       KanyeQuoteApp.errorMessage "unknown"]) :=
  ⟨by decide,
   C1_fallback_behaviour
     ⟨false, ⟨[], [], ""⟩, ⟨FavFile.absent, HistFile.absent⟩⟩
     "connection" 3 "T" (by decide)⟩

/-- Counterexample for C3 as stated: favorites may hold duplicates (a
persisted file is loaded verbatim), and from the state with favorites
`["A", "A"]` both toggles of `"A"` remove one occurrence and return
`false`: `is_favorite` goes from `true` to `false` instead of being
restored, and the second return value is not the negation of the first. -/
theorem C3_double_toggle_counterexample :
    ¬ ((((⟨[], ["A", "A"], ""⟩ : QuoteManager).toggle_favorite
          "A").1.toggle_favorite "A").1.is_favorite "A" =
        (⟨[], ["A", "A"], ""⟩ : QuoteManager).is_favorite "A" ∧
       (((⟨[], ["A", "A"], ""⟩ : QuoteManager).toggle_favorite
          "A").1.toggle_favorite "A").2 =
        !((⟨[], ["A", "A"], ""⟩ : QuoteManager).toggle_favorite "A").2) := by
  decide

/-- C3 as amended: whenever `q` occurs at most once in favorites (in
particular in every duplicate-free state), toggling `q` twice restores
`is_favorite q` to its original value and the second call returns the
negation of the first call's return value. -/
theorem C3_double_toggle (qm : QuoteManager) (q : String)
    (h : qm.favorites.count q ≤ 1) :
    ((qm.toggle_favorite q).1.toggle_favorite q).1.is_favorite q =
      qm.is_favorite q ∧
    ((qm.toggle_favorite q).1.toggle_favorite q).2 =
      !(qm.toggle_favorite q).2 := by
  by_cases hc : q ∈ qm.favorites
  · have h1 : 0 < qm.favorites.count q := List.count_pos_iff.mpr hc
    have hne : q ∉ qm.favorites.erase q := by
      rw [← List.count_eq_zero, List.count_erase_self]
      omega
    simp [QuoteManager.toggle_favorite, QuoteManager.is_favorite, hc, hne]
  · have herase : (qm.favorites ++ [q]).erase q = qm.favorites := by
      rw [List.erase_append_right _ hc]
      simp
    simp [QuoteManager.toggle_favorite, QuoteManager.is_favorite, hc, herase]

/-- Witness for the amended C3: double toggle of a fresh quote on a
duplicate-free favorites list. -/
theorem C3_double_toggle_witness :
    (⟨[], ["B"], ""⟩ : QuoteManager).favorites.count "A" ≤ 1 ∧
    ((((⟨[], ["B"], ""⟩ : QuoteManager).toggle_favorite
          "A").1.toggle_favorite "A").1.is_favorite "A" =
        (⟨[], ["B"], ""⟩ : QuoteManager).is_favorite "A" ∧
      (((⟨[], ["B"], ""⟩ : QuoteManager).toggle_favorite
          "A").1.toggle_favorite "A").2 =
        !((⟨[], ["B"], ""⟩ : QuoteManager).toggle_favorite "A").2) :=
  ⟨by decide, C3_double_toggle ⟨[], ["B"], ""⟩ "A" (by decide)⟩

/-- Counterexample for C8 as stated: construction does not enforce the
no-duplicates invariant — `_load_data` adopts the persisted favorites
list verbatim, so a file holding `["A", "A"]` yields a favorites state
with a duplicate entry. -/
theorem C8_nodup_counterexample :
    ¬ (QuoteManager.init
        ⟨FavFile.valid ["A", "A"], HistFile.absent⟩).favorites.Nodup := by
  decide

/-- C8 as amended: `toggle_favorite` and removal (`list.remove`, i.e.
first-occurrence erasure by exact string equality) preserve the
no-duplicates invariant, and construction yields duplicate-free favorites
exactly when the persisted list itself is duplicate-free (it is adopted
verbatim). -/
theorem C8_nodup_preserved (qm : QuoteManager) (q : String)
    (h : qm.favorites.Nodup) :
    (qm.toggle_favorite q).1.favorites.Nodup ∧
    (qm.favorites.erase q).Nodup ∧
    (∀ (l : List String) (hf : HistFile), l.Nodup →
      (QuoteManager.init ⟨FavFile.valid l, hf⟩).favorites.Nodup) := by
  refine ⟨?_, h.erase q, ?_⟩
  · unfold QuoteManager.toggle_favorite
    by_cases hc : q ∈ qm.favorites
    · simp [hc, h.erase q]
    · simp [hc, List.nodup_append, h]
  · intro l hf hl
    cases hf <;> exact hl

/-- Witness for the amended C8 on a concrete duplicate-free state. -/
theorem C8_nodup_preserved_witness :
    (⟨[], ["A"], ""⟩ : QuoteManager).favorites.Nodup ∧
    (((⟨[], ["A"], ""⟩ : QuoteManager).toggle_favorite "B").1.favorites.Nodup ∧
      ((⟨[], ["A"], ""⟩ : QuoteManager).favorites.erase "B").Nodup ∧
      (∀ (l : List String) (hf : HistFile), l.Nodup →
        (QuoteManager.init ⟨FavFile.valid l, hf⟩).favorites.Nodup)) :=
  ⟨by decide, C8_nodup_preserved ⟨[], ["A"], ""⟩ "B" (by decide)⟩

/-- Counterexample for C9 as stated: `get_quote` guards on `is_loading`,
but the in-flight fetch thread only sets that flag through a callback it
schedules onto the main loop. From the idle initial state, one press
leaves exactly one fetch in flight with `is_loading` still `false`, so a
second press is not a no-op: it spawns a second concurrent fetch
(`inFlight` reaches 2). -/
theorem C9_second_fetch_counterexample :
    inFlight (loopStep
        ⟨0, 0, [], ⟨false, ⟨[], [], ""⟩, ⟨FavFile.absent, HistFile.absent⟩⟩⟩
        LoopEv.press) = 1 ∧
    loopStep (loopStep
        ⟨0, 0, [], ⟨false, ⟨[], [], ""⟩, ⟨FavFile.absent, HistFile.absent⟩⟩⟩
        LoopEv.press) LoopEv.press ≠
      loopStep
        ⟨0, 0, [], ⟨false, ⟨[], [], ""⟩, ⟨FavFile.absent, HistFile.absent⟩⟩⟩
        LoopEv.press ∧
    inFlight (loopStep (loopStep
        ⟨0, 0, [], ⟨false, ⟨[], [], ""⟩, ⟨FavFile.absent, HistFile.absent⟩⟩⟩
        LoopEv.press) LoopEv.press) = 2 := by
  decide

/-- C9 as amended: once the in-flight fetch's scheduled
`_show_loading(True)` callback has run on the main loop (`is_loading` is
`true`), every further `get_quote` call is a no-op — the state is
unchanged and no second fetch thread starts — and each completed fetch
cycle produces exactly one history entry when its delivery callback
(success or error) runs. Only in the window between thread spawn and that
callback can a further call start a second concurrent fetch. -/
theorem C9_coalescing_once_loading (s : LoopState) :
    (s.app.is_loading = true → loopStep s LoopEv.press = s) ∧
    (∀ q t rest, s.queue = MainCb.deliverSuccess q t :: rest →
      (loopStep s LoopEv.runMain).app.quote_manager.history.length =
        s.app.quote_manager.history.length + 1) ∧
    (∀ e k t rest, s.queue = MainCb.deliverError e k t :: rest →
      (loopStep s LoopEv.runMain).app.quote_manager.history.length =
        s.app.quote_manager.history.length + 1) := by
  refine ⟨?_, ?_, ?_⟩
  · intro h
    simp [loopStep, h]
  · intro q t rest hq
    simp [loopStep, hq, KanyeQuoteApp._display_quote,
      KanyeQuoteApp._show_loading, QuoteManager.add_to_history,
      QuoteManager.save_data, QuoteManager.save_body]
  · intro e k t rest hq
    simp [loopStep, hq, KanyeQuoteApp._handle_error,
      KanyeQuoteApp._show_loading, QuoteManager.add_to_history]

/-- Witness for the amended C9: a press on a loading state is a no-op,
and concrete success and error deliveries each add one history entry. -/
theorem C9_coalescing_once_loading_witness :
    (loopStep
        ⟨0, 1, [], ⟨true, ⟨[], [], ""⟩, ⟨FavFile.absent, HistFile.absent⟩⟩⟩
        LoopEv.press =
      ⟨0, 1, [], ⟨true, ⟨[], [], ""⟩, ⟨FavFile.absent, HistFile.absent⟩⟩⟩) ∧
    ((loopStep
        ⟨0, 0, [MainCb.deliverSuccess "q" "T"],
         ⟨true, ⟨[], [], ""⟩, ⟨FavFile.absent, HistFile.absent⟩⟩⟩
        LoopEv.runMain).app.quote_manager.history.length =
      (LoopState.mk 0 0 [MainCb.deliverSuccess "q" "T"]
        ⟨true, ⟨[], [], ""⟩,
         ⟨FavFile.absent, HistFile.absent⟩⟩).app.quote_manager.history.length
        + 1) ∧
    ((loopStep
        ⟨0, 0, [MainCb.deliverError "timeout" 0 "T"],
         ⟨true, ⟨[], [], ""⟩, ⟨FavFile.absent, HistFile.absent⟩⟩⟩
        LoopEv.runMain).app.quote_manager.history.length =
      (LoopState.mk 0 0 [MainCb.deliverError "timeout" 0 "T"]
        ⟨true, ⟨[], [], ""⟩,
         ⟨FavFile.absent, HistFile.absent⟩⟩).app.quote_manager.history.length
        + 1) :=
  ⟨(C9_coalescing_once_loading
      ⟨0, 1, [], ⟨true, ⟨[], [], ""⟩, ⟨FavFile.absent, HistFile.absent⟩⟩⟩).1
      rfl,
   (C9_coalescing_once_loading
      ⟨0, 0, [MainCb.deliverSuccess "q" "T"],
       ⟨true, ⟨[], [], ""⟩, ⟨FavFile.absent, HistFile.absent⟩⟩⟩).2.1
      "q" "T" [] rfl,
   (C9_coalescing_once_loading
      ⟨0, 0, [MainCb.deliverError "timeout" 0 "T"],
       ⟨true, ⟨[], [], ""⟩, ⟨FavFile.absent, HistFile.absent⟩⟩⟩).2.2
      "timeout" 0 "T" [] rfl⟩
